import Mathlib

/-!
Shallow embedding of the `tarshim` repository (two Python modules:
`notebook_image_handling.py` and `tarshim.py`) together with proofs about it.

Modelling conventions:
- Python keyword-argument dictionaries are association lists of `String × PyVal`
  with Python's `dict.update` semantics.
- Python exceptions raised by library calls (`shutil.rmtree`, `os.makedirs`,
  `fig.savefig`) are modelled by oracle arguments of type `Except PyError Unit`:
  the environment decides whether the library call raises, and which exception
  class it raises; the embedded code then reproduces the Python control flow
  (`try`/`except`, propagation of uncaught exceptions) exactly.
- The filesystem, as far as the handler observes it, is the list of files
  written, each a path paired with its byte content.
- matplotlib's actual rasterisation is an opaque external function
  `render : Figure → List Nat` (the PNG bytes `fig.savefig` would produce for
  the figure in its current state); it is passed in as a parameter.
- Paths are POSIX strings; `os.path.join` and `os.path.abspath` are modelled
  from their documented semantics (normalisation of `.`/`..` segments inside
  `abspath` is elided, which no claim depends on).
-/

/-- A Python scalar value as used in keyword-argument dictionaries. -/
inductive PyVal where
  | str (s : String)
  | int (n : Int)
deriving DecidableEq

/-- A Python keyword-argument dictionary: keys with values, later `update`s
replacing earlier bindings. -/
abbrev Kwargs := List (String × PyVal)

/-- Set one key of a Python dict: replace the binding in place if the key is
present, otherwise append it (Python dicts keep insertion order). -/
def dictSet (d : Kwargs) (k : String) (v : PyVal) : Kwargs :=
  if d.any (fun p => p.1 == k) then
    d.map (fun p => if p.1 == k then (k, v) else p)
  else
    d ++ [(k, v)]

/-- Python's `dict.update`: apply every binding of `o` to `d` in order. -/
def dictUpdate (d : Kwargs) (o : Kwargs) : Kwargs :=
  o.foldl (fun acc p => dictSet acc p.1 p.2) d

/-- The Python exception classes relevant to this code base.
`fileNotFoundError` and `permissionError` are subclasses of `OSError`;
`osError` stands for any other `OSError`; `otherException` is an exception
not derived from `OSError`. -/
inductive PyError where
  | fileNotFoundError
  | permissionError
  | osError
  | otherException
deriving DecidableEq

/-- Whether a raised exception is an instance of `OSError` (the class caught
by `except OSError` in `FigureDisplay.__init__`). -/
def isOSError : PyError → Bool
  | .fileNotFoundError => true
  | .permissionError => true
  | .osError => true
  | .otherException => false

deriving instance DecidableEq for Except

/-- Whether an `Except` value is a success. -/
def exceptIsOk {ε α : Type} : Except ε α → Bool
  | .ok _ => true
  | .error _ => false

/-! Path helpers, modelling `posixpath` semantics. -/

/-- Python's `s.startswith('/')`, the absolute-path test of `posixpath`. -/
def startsWithSlash (s : String) : Bool :=
  s.data.head? == some '/'

/-- Whether a path string ends with the separator `'/'`. -/
def endsWithSlash (s : String) : Bool :=
  s.data.getLast? == some '/'

/-- Remove one trailing separator, if present: the directory denoted by
`"a/b/"` is the directory `"a/b"`. -/
def stripTrailingSlash (s : String) : String :=
  if s.data.getLast? == some '/' then String.mk s.data.dropLast else s

/-- `os.path.join(a, b)` for POSIX paths: an absolute second component
discards the first; otherwise the components are glued with exactly one
separator. -/
def osPathJoin (a b : String) : String :=
  if startsWithSlash b then b
  else if a == "" || endsWithSlash a then a ++ b
  else a ++ "/" ++ b

/-- `os.path.abspath(p)` relative to the current working directory `cwd`:
an already-absolute path is returned as is, otherwise it is joined onto
`cwd` (dot-segment normalisation elided). -/
def osPathAbspath (cwd p : String) : String :=
  if startsWithSlash p then p else osPathJoin cwd p

/-- True when path `p` lies inside (or is) the directory `d`:
`p` equals `d` or extends `d` by a separator. -/
def underPath (d p : String) : Bool :=
  p == d || List.isPrefixOf (d.data ++ ['/']) p.data

/-- Effect of `shutil.rmtree(d)` on the set of existing paths: every path
inside the directory denoted by `d` (a trailing separator in `d` is
immaterial) is removed. -/
def shutil_rmtree (fs : List String) (d : String) : List String :=
  fs.filter (fun p => !(underPath (stripTrailingSlash d) p))

/-! Decimal formatting: Python's `"%03d" % n` for a non-negative `n`. -/

/-- The value of a decimal digit character. -/
def charDigitVal (c : Char) : Nat :=
  c.toNat - '0'.toNat

/-- Big-endian decimal digit characters of `n`, with `fuel` bounding the
recursion depth (`fuel = n` always suffices); `decCharsAux fuel 0 = []`. -/
def decCharsAux : Nat → Nat → List Char
  | 0, _ => []
  | fuel + 1, n =>
      if n = 0 then []
      else decCharsAux fuel (n / 10) ++ [Nat.digitChar (n % 10)]

/-- Decimal representation of `n` as digit characters (what `%d` prints). -/
def decChars (n : Nat) : List Char :=
  if n = 0 then ['0'] else decCharsAux n n

/-- Pad a digit string on the left with `'0'` to a minimum width `w`. -/
def padLeftZeros (w : Nat) (l : List Char) : List Char :=
  List.replicate (w - l.length) '0' ++ l

/-- Python's `"%03d" % n`: `n` in decimal, zero-padded to at least 3 digits,
wider numbers printed in full. -/
def pctFmt03d (n : Nat) : String :=
  String.mk (padLeftZeros 3 (decChars n))

/-- The file name `"figure_%03d.png" % n` used by `figsave`. -/
def figureBasename (n : Nat) : String :=
  "figure_" ++ pctFmt03d n ++ ".png"

/-- Parse a big-endian decimal digit string (leading zeros allowed). -/
def parseDigits (l : List Char) : Nat :=
  l.foldl (fun acc c => acc * 10 + charDigitVal c) 0

/-- The sequence number encoded in a saved file name: for a directory string
`dir` (not ending in a separator), skip `dir`, the separator and the 7
characters of `"figure_"`, drop the 4 characters of `".png"`, and parse the
remaining digits. -/
def figNumOf (dir : String) (s : String) : Nat :=
  let t := s.data.drop (dir.data.length + 8)
  parseDigits (t.take (t.length - 4))

/-! The matplotlib figure object, as observed by this code base. -/

/-- A matplotlib figure: an opaque content identifier, its face color, the
suptitle last applied to it (text with keyword options), and whether
`plt.close` has released it. -/
structure Figure where
  content : Nat
  facecolor : String
  suptitleSet : Option (String × Kwargs)
  closed : Bool
deriving DecidableEq

/-- `fig.suptitle(t, **kw)`: stamp (or replace) the figure's suptitle. -/
def Figure.suptitle (fig : Figure) (t : String) (kw : Kwargs) : Figure :=
  { fig with suptitleSet := some (t, kw) }

/-- `fig.get_facecolor()`. -/
def Figure.get_facecolor (fig : Figure) : String :=
  fig.facecolor

/-- `plt.close(fig)`: release the figure resource. -/
def Figure.close (fig : Figure) : Figure :=
  { fig with closed := true }

/-! The filesystem as a log of written files. -/

/-- The observable filesystem state: the files present, each path with its
byte content. -/
structure FS where
  files : List (String × List Nat)
deriving DecidableEq

/-- Write (or overwrite) one file. -/
def FS.write (fs : FS) (path : String) (data : List Nat) : FS :=
  if fs.files.any (fun p => p.1 == path) then
    ⟨fs.files.map (fun p => if p.1 == path then (path, data) else p)⟩
  else
    ⟨fs.files ++ [(path, data)]⟩

/-- Read a file's bytes, if the file exists. -/
def FS.read (fs : FS) (path : String) : Option (List Nat) :=
  List.lookup path fs.files

/-- The handle returned by `IPython.display.display(Image(fname))`: the path
shown and the bytes the `Image` loaded from disk. -/
structure DisplayHandle where
  path : String
  data : Option (List Nat)
deriving DecidableEq

/-- `display(Image(fname))`: load the file back from disk and render it into
the notebook output stream, returning a handle. -/
def IPythonImageDisplay (fs : FS) (fname : String) : DisplayHandle :=
  ⟨fname, fs.read fname⟩

/-! The `FigureDisplay` class of `notebook_image_handling.py`. -/

/-- The instance state of `FigureDisplay`: the fields assigned in
`__init__`. -/
structure FigureDisplay where
  report_name : String
  show_title : Bool
  current_number : Nat
  suptitle_kwargs : Kwargs
  dir_name : String
deriving DecidableEq

/-- The default suptitle options of `__init__`:
`dict(ha="left", ma="left", x=0, va='bottom')`. -/
def defaultSuptitleKwargs : Kwargs :=
  [("ha", .str "left"), ("ma", .str "left"), ("x", .int 0), ("va", .str "bottom")]

/-- `FigureDisplay.__init__`: set the fields, merge the suptitle options over
the defaults, resolve `dir_name` from the absolute parent directory and the
report name, then `try: shutil.rmtree(dir_name) except OSError: pass` and
`os.makedirs(dir_name)`.  `rmtreeResult` and `makedirsResult` are the
outcomes of the two library calls as decided by the environment; an
exception that is not caught propagates as the construction's result. -/
def FigureDisplay.init (report_name : String) (show_title : Bool)
    (parent_directory : String) (suptitle_kwargs : Kwargs) (cwd : String)
    (rmtreeResult : Except PyError Unit) (makedirsResult : Except PyError Unit) :
    Except PyError FigureDisplay :=
  let parent_abs := osPathAbspath cwd parent_directory
  let self : FigureDisplay :=
    { report_name := report_name
      show_title := show_title
      current_number := 1
      suptitle_kwargs := dictUpdate defaultSuptitleKwargs suptitle_kwargs
      dir_name := osPathJoin parent_abs report_name }
  let afterCleanup : Except PyError Unit :=
    match rmtreeResult with
    | .ok _ => .ok ()
    | .error e => if isOSError e then .ok () else .error e
  match afterCleanup with
  | .error e => .error e
  | .ok _ =>
      match makedirsResult with
      | .error e => .error e
      | .ok _ => .ok self

/-- The outcome of a `figsave` call: the returned file name or the raised
exception, together with the handler state, the filesystem, and the figure
object after the call. -/
structure SaveOutcome where
  result : Except PyError String
  handler : FigureDisplay
  fs : FS
  fig : Figure
deriving DecidableEq

/-- `FigureDisplay.figsave(fig, title=None)`: optionally stamp the title,
compute the numbered file name, attempt the write (whose success or raised
exception is `writeResult`), and only after a successful write increment
`current_number` and close the figure.  A raised write exception propagates
with the handler state unchanged, exactly as in the Python method where the
increment follows the `fig.savefig` call. -/
def FigureDisplay.figsave (render : Figure → List Nat)
    (writeResult : Except PyError Unit) (self : FigureDisplay) (fs : FS)
    (fig : Figure) (title : Option String) : SaveOutcome :=
  let fig :=
    match self.show_title, title with
    | true, some t => fig.suptitle t self.suptitle_kwargs
    | _, _ => fig
  let current_figure_number := self.current_number
  let fname := osPathJoin self.dir_name (figureBasename current_figure_number)
  match writeResult with
  | .error e => { result := .error e, handler := self, fs := fs, fig := fig }
  | .ok _ =>
      { result := .ok fname
        handler := { self with current_number := self.current_number + 1 }
        fs := fs.write fname (render fig)
        fig := fig.close }

/-- The outcome of a `figdisp` (or `__call__`) call. -/
structure DispOutcome where
  result : Except PyError DisplayHandle
  handler : FigureDisplay
  fs : FS
  fig : Figure
deriving DecidableEq

/-- `FigureDisplay.figdisp(fig, title=None)`: save via `figsave`, then
`display(Image(fname))` on the just-written file; an exception raised by the
save propagates. -/
def FigureDisplay.figdisp (render : Figure → List Nat)
    (writeResult : Except PyError Unit) (self : FigureDisplay) (fs : FS)
    (fig : Figure) (title : Option String) : DispOutcome :=
  let r := FigureDisplay.figsave render writeResult self fs fig title
  { result := r.result.map (fun fname => IPythonImageDisplay r.fs fname)
    handler := r.handler
    fs := r.fs
    fig := r.fig }

/-- `FigureDisplay.__call__(fig=None, title=None)`: fall back to the
rendering library's current active figure (`plt.gcf()`, supplied here as
`gcf`) when no figure is given, then delegate to `figdisp`. -/
def FigureDisplay.callOp (render : Figure → List Nat)
    (writeResult : Except PyError Unit) (gcf : Figure) (self : FigureDisplay)
    (fs : FS) (fig : Option Figure) (title : Option String) : DispOutcome :=
  let f :=
    match fig with
    | none => gcf
    | some f => f
  FigureDisplay.figdisp render writeResult self fs f title

/-- A sequence of consecutive `figsave` calls with succeeding writes: returns
the file names produced in call order, with the final handler state and
filesystem. -/
def saveAll (render : Figure → List Nat) (self : FigureDisplay) (fs : FS) :
    List (Figure × Option String) → List String × FigureDisplay × FS
  | [] => ([], self, fs)
  | (fig, title) :: rest =>
      let r := FigureDisplay.figsave render (.ok ()) self fs fig title
      match r.result with
      | .ok fname =>
          let out := saveAll render r.handler r.fs rest
          (fname :: out.1, out.2)
      | .error _ => ([], r.handler, r.fs)

/-! The `tarshim.py` module: diagnostic plot builders and the HTML table
renderer.  Numeric sequences (numpy arrays) are modelled as `List Int`
(exact numbers standing for the array elements); numpy's arithmetic on
equal-length arrays is elementwise. -/

/-- Elementwise numpy subtraction `a - b` of two 1-D arrays. -/
def numpySub (a b : List Int) : List Int :=
  List.zipWith (fun x y => x - y) a b

/-- The residual-scatter axes built by `plot_residuals`: the points of the
`ax.plot(predictions, residuals, 'o')` call, the zero reference line, the
labels and the two corner annotations. -/
structure ResidualAxes where
  points : List (Int × Int)
  hline : Int
  xlabel : String
  ylabel : Option String
  cornerTexts : List String
deriving DecidableEq

/-- `plot_residuals(observations, predictions, ...)`: compute
`residuals = observations - predictions` and scatter them against the
predictions, with a dashed zero line and over/under-estimation corner
texts. -/
def plot_residuals (observations predictions : List Int) (ylabel : Bool) :
    ResidualAxes :=
  let residuals := numpySub observations predictions
  { points := List.zip predictions residuals
    hline := 0
    xlabel := "Predicted"
    ylabel := if ylabel then some "Obs $-$ Pred" else none
    cornerTexts := ["Overestimation", "Underestimation"] }

/-- The residual-density axes built by `plot_residual_kde`: the data handed
to the density estimator (the external `sns.kdeplot` call). -/
structure KdeAxes where
  data : List Int
deriving DecidableEq

/-- `plot_residual_kde(residuals, ax)`: `residuals.reshape(-1)` on a 1-D
array is the identity; the flattened residuals are handed to the density
estimator (percentile tick computation happens inside the external chart
library on the same data). -/
def plot_residual_kde (residuals : List Int) : KdeAxes :=
  { data := residuals }

/-- The observed-vs-predicted axes built by
`_actual_plot_observed_vs_predicted`: the regression-scatter points of
`sns.regplot(predictions, observations, ...)` and the span of the identity
reference line (`None` when a sequence is empty, where Python's `min`/`max`
would raise). -/
structure ObsPredAxes where
  points : List (Int × Int)
  identSpan : Option (Int × Int)
  xlabel : String
  ylabel : Option String
deriving DecidableEq

/-- `_actual_plot_observed_vs_predicted(observations, predictions, ...)`. -/
def actualPlotObservedVsPredicted (observations predictions : List Int)
    (ylabel : Bool) : ObsPredAxes :=
  let mn :=
    match observations.min?, predictions.min? with
    | some a, some b => some (min a b)
    | _, _ => none
  let mx :=
    match observations.max?, predictions.max? with
    | some a, some b => some (max a b)
    | _, _ => none
  { points := List.zip predictions observations
    identSpan :=
      match mn, mx with
      | some a, some b => some (a, b)
      | _, _ => none
    xlabel := "Predicted"
    ylabel := if ylabel then some "Observed" else none }

/-- The composite figure built by `plot_observed_vs_predicted`: the three
axes on the fixed grid. -/
structure ObsPredFigure where
  ax_obs_pred : ObsPredAxes
  ax_residuals : ResidualAxes
  ax_residual_kde : KdeAxes
deriving DecidableEq

/-- `plot_observed_vs_predicted(observations, predictions, fig=None)`:
assemble the observed-vs-predicted scatter, the residual scatter, and the
residual density (fed `observations - predictions`) into one figure. -/
def plot_observed_vs_predicted (observations predictions : List Int) :
    ObsPredFigure :=
  { ax_obs_pred := actualPlotObservedVsPredicted observations predictions true
    ax_residuals := plot_residuals observations predictions true
    ax_residual_kde := plot_residual_kde (numpySub observations predictions) }

/-! The HTML table renderer. -/

/-- Exceptions raised on the dataframe-to-HTML path: the `assert` in
`html_from_dataframe`, or calling `.savefig` on a cell value that is not a
figure. -/
inductive PandasError where
  | assertionError
  | attributeError
deriving DecidableEq

/-- A column label of a dataframe with a two-level column index: the pair of
the first- and second-level labels (`c[0]`, `c[1]` in Python). -/
abbrev PdCol := String × String

/-- A cell value of the dataframe: a matplotlib figure or a plain value with
its string form. -/
inductive Cell where
  | figure (fig : Figure)
  | text (s : String)
deriving DecidableEq

/-- Pandas' default cell stringification, used for columns without a
formatter. -/
def Cell.defaultStr : Cell → String
  | .figure _ => "<Figure>"
  | .text s => s

/-- The standard base64 alphabet. -/
def base64Alphabet : List Char :=
  "ABCDEFGHIJKLMNOPQRSTUVWXYZabcdefghijklmnopqrstuvwxyz0123456789+/".toList

/-- The base64 character of a 6-bit group. -/
def b64Char (n : Nat) : Char :=
  base64Alphabet.getD n '='

/-- Base64 encoding of a byte list (`base64.b64encode`), three bytes per
four output characters, `'='`-padded. -/
def base64Encode : List Nat → List Char
  | [] => []
  | [a] =>
      [b64Char (a / 4), b64Char (a % 4 * 16), '=', '=']
  | [a, b] =>
      [b64Char (a / 4), b64Char (a % 4 * 16 + b / 16), b64Char (b % 16 * 4), '=']
  | a :: b :: c :: rest =>
      [b64Char (a / 4), b64Char (a % 4 * 16 + b / 16),
       b64Char (b % 16 * 4 + c / 64), b64Char (c % 64)] ++ base64Encode rest

/-- `cell_figure_mapping(fig)`: serialise the figure to PNG bytes in memory
(`fig.savefig` into a byte buffer, the external rasteriser being `render`),
base64-encode them, and wrap them in an inline `<img>` tag with a data URI.
Applied to a value that is not a figure, the `.savefig` attribute access
raises. -/
def cell_figure_mapping (render : Figure → List Nat) :
    Cell → Except PandasError String
  | .figure fig =>
      let figdata_png := String.mk (base64Encode (render fig))
      .ok ("<img src=\"data:image/png;base64," ++ figdata_png ++ "\" />")
  | .text _ => .error .attributeError

/-- A dataframe with a two-level column index: the column labels and the
rows, each row holding one cell per column. -/
structure DataFrame where
  columns : List PdCol
  rows : List (List Cell)
deriving DecidableEq

/-- The formatters dictionary passed to `df.to_html`: column label to
cell formatter. -/
abbrev Formatters := List (PdCol × (Cell → Except PandasError String))

/-- Build `{c: cell_figure_mapping for c in figure_columns}`. -/
def mkFormatters (render : Figure → List Nat) (figure_columns : List PdCol) :
    Formatters :=
  figure_columns.map (fun c => (c, cell_figure_mapping render))

/-- Render one cell: through the column's formatter when the column has one,
with default stringification otherwise. -/
def renderCell (fmts : Formatters) (col : PdCol) (c : Cell) :
    Except PandasError String :=
  match List.lookup col fmts with
  | some f => f c
  | none => .ok (Cell.defaultStr c)

/-- Map a fallible function over a list, propagating the first raised
exception. -/
def mapExcept {α β : Type} (f : α → Except PandasError β) :
    List α → Except PandasError (List β)
  | [] => .ok []
  | a :: as => do
      let b ← f a
      let bs ← mapExcept f as
      .ok (b :: bs)

/-- Minimal HTML escaping of `&`, `<` and `>` (what pandas applies when
`escape=True`). -/
def escapeHtml (s : String) : String :=
  String.mk (s.data.flatMap (fun c =>
    if c = '&' then "&amp;".data
    else if c = '<' then "&lt;".data
    else if c = '>' then "&gt;".data
    else [c]))

/-- One `<td>` body cell. -/
def tdCell (s : String) : String := "<td>" ++ s ++ "</td>"

/-- One `<th>` header cell. -/
def thCell (s : String) : String := "<th>" ++ s ++ "</th>"

/-- One `<tr>` table row. -/
def trRow (cells : List String) : String :=
  "<tr>" ++ String.join cells ++ "</tr>"

/-- The two header rows of a two-level column index. -/
def headerHtml (cols : List PdCol) : String :=
  "<thead>" ++ trRow (cols.map (fun c => thCell c.1)) ++
    trRow (cols.map (fun c => thCell c.2)) ++ "</thead>"

/-- `df.to_html(escape=..., formatters=..., border=...)`: format every body
cell through its column's formatter (or the default), escape cell text when
requested, and assemble the table markup; an exception raised by a formatter
propagates and no string is produced. -/
def DataFrame.to_html (df : DataFrame) (escape : Bool) (fmts : Formatters)
    (border : Nat) : Except PandasError String := do
  let body ← mapExcept (fun row => do
      let cells ← mapExcept (fun (p : PdCol × Cell) => do
          let s ← renderCell fmts p.1 p.2
          pure (tdCell (if escape then escapeHtml s else s)))
        (df.columns.zip row)
      pure (trRow cells)) df.rows
  pure ("<table border=\"" ++ String.mk (decChars border) ++ "\">" ++
    headerHtml df.columns ++ "<tbody>" ++ String.join body ++
    "</tbody></table>")

/-- The `figure_columns` argument of `html_from_dataframe`: Python's `None`,
the literal string `'infer'`, or an explicit list of column labels. -/
inductive FigureColumnsArg where
  | nonePy
  | infer
  | explicit (cols : List PdCol)
deriving DecidableEq

/-- The `for c in figure_columns: assert c in df.columns` loop: raises
`AssertionError` at the first requested column absent from the table. -/
def checkColumns (cols : List PdCol) (dfCols : List PdCol) :
    Except PandasError Unit :=
  match cols with
  | [] => .ok ()
  | c :: rest =>
      if dfCols.contains c then checkColumns rest dfCols
      else .error .assertionError

/-- `html_from_dataframe(df, figure_columns=None)`: with `None` no figure
columns; with `'infer'` the columns whose second-level label `c[1]` equals
`'fig'`; with an explicit list, assert every requested column exists.  Then
render via `df.to_html(escape=False, formatters=..., border=0)` (the
`df.copy()` of the source is the identity on an immutable model). -/
def html_from_dataframe (render : Figure → List Nat) (df : DataFrame)
    (figure_columns : FigureColumnsArg) : Except PandasError String :=
  match figure_columns with
  | .nonePy => df.to_html false (mkFormatters render []) 0
  | .infer =>
      df.to_html false
        (mkFormatters render (df.columns.filter (fun c => c.2 == "fig"))) 0
  | .explicit cols => do
      checkColumns cols df.columns
      df.to_html false (mkFormatters render cols) 0

/-! Lemmas: decimal formatting and parsing. -/

theorem charDigitVal_digitChar (d : Nat) (h : d < 10) :
    charDigitVal (Nat.digitChar d) = d := by
  interval_cases d <;> rfl

theorem parseDigits_append_singleton (l : List Char) (c : Char) :
    parseDigits (l ++ [c]) = parseDigits l * 10 + charDigitVal c := by
  simp [parseDigits, List.foldl_append]

theorem parseDigits_replicate_zeros (k : Nat) (l : List Char) :
    parseDigits (List.replicate k '0' ++ l) = parseDigits l := by
  have h : ∀ k : Nat,
      List.foldl (fun acc c => acc * 10 + charDigitVal c) 0
        (List.replicate k '0') = 0 := by
    intro k
    induction k with
    | zero => rfl
    | succ k ih => simpa [List.replicate_succ, charDigitVal] using ih
  simp [parseDigits, List.foldl_append, h]

theorem parseDigits_decCharsAux (fuel : Nat) :
    ∀ n : Nat, n ≤ fuel → parseDigits (decCharsAux fuel n) = n := by
  induction fuel with
  | zero =>
      intro n hn
      interval_cases n
      rfl
  | succ fuel ih =>
      intro n hn
      by_cases h0 : n = 0
      · simp [decCharsAux, h0, parseDigits]
      · have hdiv : n / 10 ≤ fuel := by
          have := Nat.div_lt_self (Nat.pos_of_ne_zero h0) (by norm_num : 1 < 10)
          omega
        have hmod : n % 10 < 10 := Nat.mod_lt _ (by norm_num)
        rw [decCharsAux, if_neg h0, parseDigits_append_singleton,
          ih (n / 10) hdiv, charDigitVal_digitChar _ hmod]
        omega

theorem parseDigits_decChars (n : Nat) : parseDigits (decChars n) = n := by
  by_cases h0 : n = 0
  · simp [decChars, h0]
    rfl
  · rw [decChars, if_neg h0]
    exact parseDigits_decCharsAux n n le_rfl

theorem parseDigits_padLeftZeros (w : Nat) (l : List Char) :
    parseDigits (padLeftZeros w l) = parseDigits l :=
  parseDigits_replicate_zeros _ l

theorem pctFmt03d_data (n : Nat) :
    (pctFmt03d n).data = padLeftZeros 3 (decChars n) := rfl

theorem parseDigits_pctFmt03d (n : Nat) :
    parseDigits (pctFmt03d n).data = n := by
  rw [pctFmt03d_data, parseDigits_padLeftZeros, parseDigits_decChars]

theorem pctFmt03d_injective : Function.Injective pctFmt03d := by
  intro m n h
  have hd : (pctFmt03d m).data = (pctFmt03d n).data := by rw [h]
  have := congrArg parseDigits hd
  rwa [parseDigits_pctFmt03d, parseDigits_pctFmt03d] at this

theorem padLeftZeros_length (w : Nat) (l : List Char) :
    (padLeftZeros w l).length = max w l.length := by
  simp [padLeftZeros]
  omega

theorem decCharsAux_length_ge (fuel : Nat) :
    ∀ n k : Nat, n ≤ fuel → 10 ^ k ≤ n → k + 1 ≤ (decCharsAux fuel n).length := by
  induction fuel with
  | zero =>
      intro n k hn hk
      have : 0 < 10 ^ k := Nat.pos_pow_of_pos k (by norm_num)
      omega
  | succ fuel ih =>
      intro n k hn hk
      have hpos : 0 < n := lt_of_lt_of_le (Nat.pos_pow_of_pos k (by norm_num)) hk
      have h0 : n ≠ 0 := Nat.pos_iff_ne_zero.mp hpos
      rw [decCharsAux, if_neg h0]
      rw [List.length_append]
      match k with
      | 0 => simp
      | k + 1 =>
          have hdiv : n / 10 ≤ fuel := by
            have := Nat.div_lt_self hpos (by norm_num : 1 < 10)
            omega
          have hk' : 10 ^ k ≤ n / 10 := by
            rw [Nat.le_div_iff_mul_le (by norm_num : 0 < 10)]
            calc 10 ^ k * 10 = 10 ^ (k + 1) := by ring
              _ ≤ n := hk
          have := ih (n / 10) k hdiv hk'
          simp
          omega

theorem decChars_length_ge_four (n : Nat) (h : 1000 ≤ n) :
    4 ≤ (decChars n).length := by
  have h0 : n ≠ 0 := by omega
  rw [decChars, if_neg h0]
  exact decCharsAux_length_ge n n 3 le_rfl (by norm_num; omega)

theorem padLeftZeros_of_ge (w : Nat) (l : List Char) (h : w ≤ l.length) :
    padLeftZeros w l = l := by
  simp [padLeftZeros, Nat.sub_eq_zero_of_le h]

theorem pctFmt03d_no_truncation (n : Nat) (h : 1000 ≤ n) :
    (pctFmt03d n).data = decChars n := by
  rw [pctFmt03d_data, padLeftZeros_of_ge]
  have := decChars_length_ge_four n h
  omega

/-! Lemmas: paths and file names. -/

theorem figureBasename_data (n : Nat) :
    (figureBasename n).data =
      ['f', 'i', 'g', 'u', 'r', 'e', '_'] ++
        padLeftZeros 3 (decChars n) ++ ['.', 'p', 'n', 'g'] := by
  show (("figure_" ++ pctFmt03d n) ++ ".png").data = _
  rw [String.data_append, String.data_append, pctFmt03d_data]

theorem figureBasename_data_inj (m n : Nat)
    (hd : (figureBasename m).data = (figureBasename n).data) : m = n := by
  rw [figureBasename_data, figureBasename_data,
    List.append_assoc, List.append_assoc] at hd
  have h1 := List.append_cancel_left hd
  have h2 := List.append_cancel_right h1
  have := congrArg parseDigits h2
  rwa [parseDigits_padLeftZeros, parseDigits_padLeftZeros,
    parseDigits_decChars, parseDigits_decChars] at this

theorem figureBasename_injective : Function.Injective figureBasename :=
  fun m n h => figureBasename_data_inj m n (congrArg String.data h)

theorem figureBasename_not_abs (n : Nat) :
    startsWithSlash (figureBasename n) = false := by
  simp [startsWithSlash, figureBasename_data]

theorem osPathJoin_figureBasename (dir : String) (n : Nat) :
    osPathJoin dir (figureBasename n) =
      if dir == "" || endsWithSlash dir then dir ++ figureBasename n
      else dir ++ "/" ++ figureBasename n := by
  rw [osPathJoin, figureBasename_not_abs]
  simp

theorem osPathJoin_figureBasename_injective (dir : String) (m n : Nat)
    (h : osPathJoin dir (figureBasename m) = osPathJoin dir (figureBasename n)) :
    m = n := by
  rw [osPathJoin_figureBasename, osPathJoin_figureBasename] at h
  apply figureBasename_data_inj
  by_cases hc : (dir == "" || endsWithSlash dir) = true
  · rw [if_pos hc, if_pos hc] at h
    have hd := congrArg String.data h
    simp only [String.data_append] at hd
    exact List.append_cancel_left hd
  · rw [if_neg hc, if_neg hc] at h
    have hd := congrArg String.data h
    simp only [String.data_append] at hd
    exact List.append_cancel_left hd

theorem figNumOf_osPathJoin (dir : String) (n : Nat)
    (h1 : endsWithSlash dir = false) (h2 : dir ≠ "") :
    figNumOf dir (osPathJoin dir (figureBasename n)) = n := by
  rw [osPathJoin_figureBasename, if_neg (by simp [h1, h2])]
  show parseDigits _ = n
  have hdata : ((dir ++ "/") ++ figureBasename n).data =
      (dir.data ++ ['/']) ++ (figureBasename n).data := by
    simp only [String.data_append]
  rw [hdata, figureBasename_data]
  have hlen : dir.data.length + 8 = (dir.data ++ ['/']).length + 7 := by
    simp
  rw [hlen, List.drop_append 7]
  have hdrop : (['f', 'i', 'g', 'u', 'r', 'e', '_'] ++
      (padLeftZeros 3 (decChars n) ++ ['.', 'p', 'n', 'g'])).drop 7 =
      padLeftZeros 3 (decChars n) ++ ['.', 'p', 'n', 'g'] := rfl
  rw [List.append_assoc, hdrop]
  have hl : (padLeftZeros 3 (decChars n) ++ ['.', 'p', 'n', 'g']).length - 4 =
      (padLeftZeros 3 (decChars n)).length := by
    simp
  rw [hl, List.take_left, parseDigits_padLeftZeros, parseDigits_decChars]

theorem startsWithSlash_append (a b : String) (h : startsWithSlash a = true) :
    startsWithSlash (a ++ b) = true := by
  rw [startsWithSlash] at h ⊢
  rw [String.data_append]
  cases hd : a.data with
  | nil => rw [hd] at h; simp at h
  | cons c cs =>
      rw [hd] at h
      simp at h
      simp [h]

theorem startsWithSlash_osPathJoin (a b : String)
    (h : startsWithSlash a = true) :
    startsWithSlash (osPathJoin a b) = true := by
  rw [osPathJoin]
  by_cases hb : startsWithSlash b = true
  · rw [if_pos hb]; exact hb
  · rw [if_neg hb]
    by_cases hc : (a == "" || endsWithSlash a) = true
    · rw [if_pos hc]; exact startsWithSlash_append a b h
    · rw [if_neg hc]
      exact startsWithSlash_append _ b (startsWithSlash_append a "/" h)

theorem startsWithSlash_osPathAbspath (cwd p : String)
    (h : startsWithSlash cwd = true) :
    startsWithSlash (osPathAbspath cwd p) = true := by
  rw [osPathAbspath]
  by_cases hp : startsWithSlash p = true
  · rw [if_pos hp]; exact hp
  · rw [if_neg hp]; exact startsWithSlash_osPathJoin cwd p h

theorem stripTrailingSlash_append_slash (a : String) :
    stripTrailingSlash (a ++ "/") = a := by
  have hdata : (a ++ "/").data = a.data ++ ['/'] := by
    simp only [String.data_append]
  rw [stripTrailingSlash, hdata, List.getLast?_concat]
  simp only [List.dropLast_concat, beq_self_eq_true, if_true]

/-! Reduction equations for the handler operations. -/

theorem init_ok (report_name : String) (show_title : Bool)
    (parent_directory : String) (kw : Kwargs) (cwd : String) :
    FigureDisplay.init report_name show_title parent_directory kw cwd
        (.ok ()) (.ok ()) =
      .ok { report_name := report_name
            show_title := show_title
            current_number := 1
            suptitle_kwargs := dictUpdate defaultSuptitleKwargs kw
            dir_name :=
              osPathJoin (osPathAbspath cwd parent_directory) report_name } := rfl

theorem figsave_ok (render : Figure → List Nat) (self : FigureDisplay)
    (fs : FS) (fig : Figure) (title : Option String) :
    FigureDisplay.figsave render (.ok ()) self fs fig title =
      { result := .ok (osPathJoin self.dir_name
          (figureBasename self.current_number))
        handler := { self with current_number := self.current_number + 1 }
        fs := fs.write
          (osPathJoin self.dir_name (figureBasename self.current_number))
          (render (match self.show_title, title with
                   | true, some t => fig.suptitle t self.suptitle_kwargs
                   | _, _ => fig))
        fig := (match self.show_title, title with
                | true, some t => fig.suptitle t self.suptitle_kwargs
                | _, _ => fig).close } := rfl

theorem figsave_error (render : Figure → List Nat) (self : FigureDisplay)
    (fs : FS) (fig : Figure) (title : Option String) (e : PyError) :
    FigureDisplay.figsave render (.error e) self fs fig title =
      { result := .error e
        handler := self
        fs := fs
        fig := match self.show_title, title with
               | true, some t => fig.suptitle t self.suptitle_kwargs
               | _, _ => fig } := rfl

theorem saveAll_cons (render : Figure → List Nat) (self : FigureDisplay)
    (fs : FS) (fig : Figure) (title : Option String)
    (rest : List (Figure × Option String)) :
    saveAll render self fs ((fig, title) :: rest) =
      (osPathJoin self.dir_name (figureBasename self.current_number) ::
          (saveAll render
            (FigureDisplay.figsave render (.ok ()) self fs fig title).handler
            (FigureDisplay.figsave render (.ok ()) self fs fig title).fs
            rest).1,
        (saveAll render
          (FigureDisplay.figsave render (.ok ()) self fs fig title).handler
          (FigureDisplay.figsave render (.ok ()) self fs fig title).fs
          rest).2) := rfl

/-- Structure of a run of consecutive saves: the names produced, the final
counter, and the final directory, for any starting state. -/
theorem saveAll_spec (render : Figure → List Nat) :
    ∀ (jobs : List (Figure × Option String)) (self : FigureDisplay) (fs : FS),
      (saveAll render self fs jobs).1 =
        (List.range jobs.length).map
          (fun i => osPathJoin self.dir_name
            (figureBasename (self.current_number + i))) ∧
      (saveAll render self fs jobs).2.1.current_number =
        self.current_number + jobs.length ∧
      (saveAll render self fs jobs).2.1.dir_name = self.dir_name := by
  intro jobs
  induction jobs with
  | nil =>
      intro self fs
      exact ⟨rfl, rfl, rfl⟩
  | cons job rest ih =>
      intro self fs
      obtain ⟨fig, title⟩ := job
      rw [saveAll_cons]
      obtain ⟨ih1, ih2, ih3⟩ := ih
        (FigureDisplay.figsave render (.ok ()) self fs fig title).handler
        (FigureDisplay.figsave render (.ok ()) self fs fig title).fs
      have hcn : (FigureDisplay.figsave render (.ok ()) self fs fig
          title).handler.current_number = self.current_number + 1 := rfl
      have hdn : (FigureDisplay.figsave render (.ok ()) self fs fig
          title).handler.dir_name = self.dir_name := rfl
      refine ⟨?_, ?_, ?_⟩
      · show osPathJoin self.dir_name (figureBasename self.current_number) ::
          _ = _
        rw [ih1, hcn, hdn, List.length_cons, List.range_succ_eq_map,
          List.map_cons, List.map_map]
        refine List.cons_eq_cons.mpr ⟨by simp, ?_⟩
        apply List.map_congr_left
        intro a _
        simp only [Function.comp_apply]
        congr 2
        omega
      · simp only [ih2, hcn, List.length_cons]
        omega
      · rw [ih3, hdn]

/-- Claim C1: for every handler instance and every sequence of N consecutive
`figsave` calls on it, the produced file names are exactly
`figure_001.png` through `figure_{N:03d}.png` in call order, each name
unique and strictly increasing in sequence number, with no gaps or repeats;
the counter starts at 1 and increases by exactly 1 per save. -/
theorem figsave_sequence_exact (render : Figure → List Nat)
    (report_name : String) (show_title : Bool) (parent_directory : String)
    (kw : Kwargs) (cwd : String) (self : FigureDisplay)
    (h : FigureDisplay.init report_name show_title parent_directory kw cwd
      (.ok ()) (.ok ()) = .ok self)
    (hslash : endsWithSlash self.dir_name = false)
    (hempty : self.dir_name ≠ "")
    (jobs : List (Figure × Option String)) (fs : FS) :
    self.current_number = 1 ∧
    (saveAll render self fs jobs).1 =
      (List.range jobs.length).map
        (fun i => osPathJoin self.dir_name (figureBasename (i + 1))) ∧
    (saveAll render self fs jobs).1.Nodup ∧
    List.Pairwise
      (fun a b => figNumOf self.dir_name a < figNumOf self.dir_name b)
      (saveAll render self fs jobs).1 ∧
    (saveAll render self fs jobs).2.1.current_number = jobs.length + 1 := by
  rw [init_ok] at h
  have hself := Except.ok.inj h
  obtain ⟨hnames, hcnt, -⟩ := saveAll_spec render jobs self fs
  have hone : self.current_number = 1 := by rw [← hself]
  have hnames' : (saveAll render self fs jobs).1 =
      (List.range jobs.length).map
        (fun i => osPathJoin self.dir_name (figureBasename (i + 1))) := by
    rw [hnames, hone]
    apply List.map_congr_left
    intro a _
    congr 2
    omega
  refine ⟨hone, hnames', ?_, ?_, ?_⟩
  · rw [hnames']
    refine List.Nodup.map ?_ (List.nodup_range _)
    intro x y hxy
    have := osPathJoin_figureBasename_injective self.dir_name (x + 1) (y + 1)
      hxy
    omega
  · rw [hnames', List.pairwise_map]
    refine (List.pairwise_lt_range _).imp ?_
    intro a b hab
    rw [figNumOf_osPathJoin _ _ hslash hempty,
      figNumOf_osPathJoin _ _ hslash hempty]
    omega
  · rw [hcnt, hone]
    omega

/-! Concrete sample values used to evaluate the theorems on closed inputs. -/

/-- A concrete rasteriser for evaluation: the PNG bytes of a figure are a
one-byte function of its state. -/
def renderW : Figure → List Nat :=
  fun f => [f.content]

/-- A concrete figure. -/
def figW0 : Figure :=
  { content := 0, facecolor := "white", suptitleSet := none, closed := false }

/-- Another concrete figure. -/
def figW1 : Figure :=
  { content := 1, facecolor := "blue", suptitleSet := none, closed := false }

/-- The handler state produced by
`FigureDisplay("r", parent_directory="figures")` with working directory
`/home`. -/
def selfW : FigureDisplay :=
  { report_name := "r", show_title := true, current_number := 1
    suptitle_kwargs := defaultSuptitleKwargs
    dir_name := "/home/figures/r" }

/-- An empty concrete filesystem. -/
def fsW : FS := ⟨[]⟩

theorem figsave_sequence_exact_witness :
    selfW.current_number = 1 ∧
    (saveAll renderW selfW fsW [(figW0, none), (figW1, some "t")]).1 =
      (List.range 2).map
        (fun i => osPathJoin selfW.dir_name (figureBasename (i + 1))) ∧
    (saveAll renderW selfW fsW [(figW0, none), (figW1, some "t")]).1.Nodup ∧
    List.Pairwise
      (fun a b => figNumOf selfW.dir_name a < figNumOf selfW.dir_name b)
      (saveAll renderW selfW fsW [(figW0, none), (figW1, some "t")]).1 ∧
    (saveAll renderW selfW fsW
      [(figW0, none), (figW1, some "t")]).2.1.current_number = 2 + 1 :=
  figsave_sequence_exact renderW "r" true "figures" [] "/home" selfW
    (by decide) (by decide) (by decide) [(figW0, none), (figW1, some "t")] fsW

/-- Claim C2 (as stated) is false on the code: a `PermissionError` raised by
the cleanup `shutil.rmtree` call does not propagate — `except OSError`
catches it and construction succeeds. -/
theorem init_swallows_permission_error_counterexample :
    exceptIsOk (FigureDisplay.init "report" true "figures" [] "/home"
      (.error .permissionError) (.ok ())) = true := rfl

/-- Claim C2 amended: during construction's directory cleanup every removal
failure of class `OSError` — "path does not exist" and permission denied
alike — is silently tolerated and construction proceeds; only an exception
not derived from `OSError` propagates to the caller. -/
theorem init_cleanup_swallows_every_oserror (report_name : String)
    (show_title : Bool) (parent_directory : String) (kw : Kwargs)
    (cwd : String) (e : PyError) (mk : Except PyError Unit) :
    FigureDisplay.init report_name show_title parent_directory kw cwd
        (.error e) mk =
      if isOSError e then
        FigureDisplay.init report_name show_title parent_directory kw cwd
          (.ok ()) mk
      else .error e := by
  by_cases he : isOSError e = true
  · rw [if_pos he]
    simp [FigureDisplay.init, he]
  · rw [if_neg he]
    have he' : isOSError e = false := by
      cases hval : isOSError e
      · rfl
      · exact absurd hval he
    simp [FigureDisplay.init, he']

/-- Claim C3 (as stated) is false on the code: a save whose write raises does
not consume a sequence number — the increment follows the `fig.savefig`
call, so the counter is left unchanged (here still 1, not 2). -/
theorem figsave_failed_write_counterexample :
    (FigureDisplay.figsave renderW (.error .osError) selfW fsW figW0
      none).result = .error .osError ∧
    ¬ (FigureDisplay.figsave renderW (.error .osError) selfW fsW figW0
      none).handler.current_number = selfW.current_number + 1 :=
  ⟨rfl, by decide⟩

/-- Claim C3 amended: `current_number` is incremented exactly when the write
succeeds; a save whose write raises propagates the exception and leaves the
counter unchanged, so the next save reuses the same sequence number. -/
theorem figsave_increment_only_on_success (render : Figure → List Nat)
    (self : FigureDisplay) (fs : FS) (fig : Figure) (title : Option String)
    (e : PyError) :
    (FigureDisplay.figsave render (.error e) self fs fig
        title).handler.current_number = self.current_number ∧
    (FigureDisplay.figsave render (.error e) self fs fig title).result =
      .error e ∧
    (FigureDisplay.figsave render (.ok ()) self fs fig
        title).handler.current_number = self.current_number + 1 :=
  ⟨rfl, rfl, rfl⟩

/-- Claim C5: for every figure and title, `figdisp` writes a file identical
to what a bare `figsave` with the same figure and title would write (same
filesystem, handler and figure outcome), then returns the display handle of
the written file; `__call__` with an explicit figure behaves exactly as
`figdisp`, and with no figure falls back to the library's current active
figure. -/
theorem figdisp_refines_figsave (render : Figure → List Nat)
    (w : Except PyError Unit) (self : FigureDisplay) (fs : FS)
    (fig gcf : Figure) (title : Option String) :
    (FigureDisplay.figdisp render w self fs fig title).fs =
      (FigureDisplay.figsave render w self fs fig title).fs ∧
    (FigureDisplay.figdisp render w self fs fig title).handler =
      (FigureDisplay.figsave render w self fs fig title).handler ∧
    (FigureDisplay.figdisp render w self fs fig title).fig =
      (FigureDisplay.figsave render w self fs fig title).fig ∧
    (FigureDisplay.figdisp render w self fs fig title).result =
      (FigureDisplay.figsave render w self fs fig title).result.map
        (fun fname => IPythonImageDisplay
          (FigureDisplay.figsave render w self fs fig title).fs fname) ∧
    FigureDisplay.callOp render w gcf self fs (some fig) title =
      FigureDisplay.figdisp render w self fs fig title ∧
    FigureDisplay.callOp render w gcf self fs none title =
      FigureDisplay.figdisp render w self fs gcf title :=
  ⟨rfl, rfl, rfl, rfl, rfl, rfl⟩

/-- Claim C6: a title is stamped onto the figure exactly when `show_title`
is true and a title argument is provided; with `show_title = False` the
title is never applied; when applied it uses the title options merged at
construction from the defaults overridden by the caller-supplied options. -/
theorem figsave_title_stamping (render : Figure → List Nat)
    (w : Except PyError Unit) (report_name : String) (show_title : Bool)
    (parent_directory : String) (kw : Kwargs) (cwd : String)
    (self : FigureDisplay)
    (h : FigureDisplay.init report_name show_title parent_directory kw cwd
      (.ok ()) (.ok ()) = .ok self)
    (fs : FS) (fig : Figure) (title : Option String) :
    self.suptitle_kwargs = dictUpdate defaultSuptitleKwargs kw ∧
    (FigureDisplay.figsave render w self fs fig title).fig.suptitleSet =
      (match show_title, title with
       | true, some t => some (t, dictUpdate defaultSuptitleKwargs kw)
       | _, _ => fig.suptitleSet) := by
  rw [init_ok] at h
  have hself := Except.ok.inj h
  subst hself
  refine ⟨rfl, ?_⟩
  cases w with
  | ok u => cases show_title <;> cases title <;> rfl
  | error e => cases show_title <;> cases title <;> rfl

/-- The handler state produced by
`FigureDisplay("r", parent_directory="figures", x=5)` with working
directory `/home`: the caller override replaces the default `x` anchor. -/
def selfW2 : FigureDisplay :=
  { report_name := "r", show_title := true, current_number := 1
    suptitle_kwargs := [("ha", .str "left"), ("ma", .str "left"),
      ("x", .int 5), ("va", .str "bottom")]
    dir_name := "/home/figures/r" }

theorem figsave_title_stamping_witness :
    selfW2.suptitle_kwargs =
      dictUpdate defaultSuptitleKwargs [("x", PyVal.int 5)] ∧
    (FigureDisplay.figsave renderW (.ok ()) selfW2 fsW figW0
      (some "T")).fig.suptitleSet =
      some ("T", dictUpdate defaultSuptitleKwargs [("x", PyVal.int 5)]) :=
  figsave_title_stamping renderW (.ok ()) "r" true "figures"
    [("x", PyVal.int 5)] "/home" selfW2 (by decide) fsW figW0 (some "T")

/-- Claim C8: every successful save returns the path
`parent_directory/report_name/figure_NNN.png` with the parent resolved to an
absolute path, `NNN` being `current_number` zero-padded to at least 3
digits, and no truncation for counters at or beyond 1000. -/
theorem figsave_returns_padded_absolute_path (report_name : String)
    (show_title : Bool) (parent_directory : String) (kw : Kwargs)
    (cwd : String) (self : FigureDisplay)
    (h : FigureDisplay.init report_name show_title parent_directory kw cwd
      (.ok ()) (.ok ()) = .ok self)
    (hcwd : startsWithSlash cwd = true) :
    self.dir_name =
      osPathJoin (osPathAbspath cwd parent_directory) report_name ∧
    startsWithSlash self.dir_name = true ∧
    (∀ (render : Figure → List Nat) (st : FigureDisplay) (fs : FS)
        (fig : Figure) (title : Option String),
        (FigureDisplay.figsave render (.ok ()) st fs fig title).result =
          .ok (osPathJoin st.dir_name (figureBasename st.current_number))) ∧
    (∀ n,
      startsWithSlash (osPathJoin self.dir_name (figureBasename n)) = true) ∧
    (∀ n, (pctFmt03d n).data.length = max 3 (decChars n).length) ∧
    (∀ n, 1000 ≤ n → (pctFmt03d n).data = decChars n) ∧
    (∀ n, parseDigits (pctFmt03d n).data = n) := by
  rw [init_ok] at h
  have hself := Except.ok.inj h
  subst hself
  refine ⟨rfl, ?_, ?_, ?_, ?_, ?_, ?_⟩
  · exact startsWithSlash_osPathJoin _ _
      (startsWithSlash_osPathAbspath _ _ hcwd)
  · intro render st fs fig title
    rfl
  · intro n
    exact startsWithSlash_osPathJoin _ _ (startsWithSlash_osPathJoin _ _
      (startsWithSlash_osPathAbspath _ _ hcwd))
  · intro n
    rw [pctFmt03d_data, padLeftZeros_length]
  · exact fun n hn => pctFmt03d_no_truncation n hn
  · exact parseDigits_pctFmt03d

theorem figsave_returns_padded_absolute_path_witness :
    selfW.dir_name = osPathJoin (osPathAbspath "/home" "figures") "r" ∧
    startsWithSlash selfW.dir_name = true ∧
    (FigureDisplay.figsave renderW (.ok ()) selfW fsW figW0 none).result =
      .ok (osPathJoin selfW.dir_name (figureBasename selfW.current_number)) ∧
    startsWithSlash (osPathJoin selfW.dir_name (figureBasename 1000)) =
      true ∧
    (pctFmt03d 1000).data.length = max 3 (decChars 1000).length ∧
    (pctFmt03d 1000).data = decChars 1000 ∧
    parseDigits (pctFmt03d 1000).data = 1000 := by
  have h := figsave_returns_padded_absolute_path "r" true "figures" []
    "/home" selfW (by decide) (by decide)
  exact ⟨h.1, h.2.1, h.2.2.1 renderW selfW fsW figW0 none, h.2.2.2.1 1000,
    h.2.2.2.2.1 1000, h.2.2.2.2.2.1 1000 (by decide), h.2.2.2.2.2.2 1000⟩

/-- Claim C10: constructing a handler with `report_name = ""` resolves the
target directory to the absolute parent directory itself (the computed
string carries one trailing separator, which denotes the same directory),
so the construction-time `shutil.rmtree` removes every path inside the
parent directory — other reports' figure folders included — before the
directory is recreated. -/
theorem init_empty_report_wipes_parent (show_title : Bool) (kw : Kwargs)
    (parent_directory cwd : String) (self : FigureDisplay)
    (h : FigureDisplay.init "" show_title parent_directory kw cwd
      (.ok ()) (.ok ()) = .ok self)
    (hns : endsWithSlash (osPathAbspath cwd parent_directory) = false)
    (hne : osPathAbspath cwd parent_directory ≠ "") :
    self.dir_name = osPathAbspath cwd parent_directory ++ "/" ∧
    stripTrailingSlash self.dir_name = osPathAbspath cwd parent_directory ∧
    ∀ (fs : List String) (p : String),
      underPath (osPathAbspath cwd parent_directory) p = true →
      p ∉ shutil_rmtree fs self.dir_name := by
  rw [init_ok] at h
  have hself := Except.ok.inj h
  subst hself
  have happ : ∀ s : String, s ++ "" = s := by
    intro s
    cases s with
    | mk l => exact congrArg String.mk (List.append_nil l)
  have hdir : osPathJoin (osPathAbspath cwd parent_directory) "" =
      osPathAbspath cwd parent_directory ++ "/" := by
    rw [osPathJoin,
      if_neg (by decide : ¬ startsWithSlash "" = true),
      if_neg (by simp [hns, hne])]
    exact happ _
  refine ⟨hdir, ?_, ?_⟩
  · show stripTrailingSlash (osPathJoin (osPathAbspath cwd parent_directory)
      "") = _
    rw [hdir]
    exact stripTrailingSlash_append_slash _
  · intro fs p hp hmem
    have hstrip : stripTrailingSlash
        (osPathJoin (osPathAbspath cwd parent_directory) "") =
        osPathAbspath cwd parent_directory := by
      rw [hdir]
      exact stripTrailingSlash_append_slash _
    rw [shutil_rmtree] at hmem
    simp only [hstrip] at hmem
    have := (List.mem_filter.mp hmem).2
    rw [hp] at this
    simp at this

/-- The handler state produced by
`FigureDisplay("", parent_directory="figures")` with working directory
`/home`: the empty report name makes the target directory the parent
itself. -/
def selfEmptyW : FigureDisplay :=
  { report_name := "", show_title := true, current_number := 1
    suptitle_kwargs := defaultSuptitleKwargs
    dir_name := "/home/figures/" }

theorem init_empty_report_wipes_parent_witness :
    selfEmptyW.dir_name = osPathAbspath "/home" "figures" ++ "/" ∧
    stripTrailingSlash selfEmptyW.dir_name =
      osPathAbspath "/home" "figures" ∧
    "/home/figures/other/figure_001.png" ∉
      shutil_rmtree ["/home/figures/other/figure_001.png"]
        selfEmptyW.dir_name := by
  have h := init_empty_report_wipes_parent true [] "figures" "/home"
    selfEmptyW (by decide) (by decide) (by decide)
  exact ⟨h.1, h.2.1,
    h.2.2 ["/home/figures/other/figure_001.png"]
      "/home/figures/other/figure_001.png" (by decide)⟩

/-- Claim C9: in the residual diagnostic plots, for every pair of
equal-length observation and prediction sequences, the residual value
plotted — the scatter y-value of `plot_residuals` and the density input of
the composite figure — at each index equals the observed value minus the
predicted value (the composite's residual axes being exactly
`plot_residuals`' output). -/
theorem residuals_are_obs_minus_pred (observations predictions : List Int)
    (h : observations.length = predictions.length) (i : Nat)
    (hi : i < observations.length) :
    (plot_residuals observations predictions true).points.get? i =
      some (predictions.get ⟨i, h ▸ hi⟩,
        observations.get ⟨i, hi⟩ - predictions.get ⟨i, h ▸ hi⟩) ∧
    (plot_observed_vs_predicted observations predictions).ax_residuals =
      plot_residuals observations predictions true ∧
    (plot_observed_vs_predicted observations
      predictions).ax_residual_kde.data.get? i =
      some (observations.get ⟨i, hi⟩ - predictions.get ⟨i, h ▸ hi⟩) := by
  have hip : i < predictions.length := h ▸ hi
  have ho := List.get?_eq_get hi
  have hp := List.get?_eq_get hip
  have hzw : (numpySub observations predictions).get? i =
      some (observations.get ⟨i, hi⟩ - predictions.get ⟨i, hip⟩) := by
    rw [numpySub, List.get?_zipWith', ho, hp]
    rfl
  refine ⟨?_, rfl, ?_⟩
  · show (List.zip predictions (numpySub observations predictions)).get? i =
      _
    rw [List.get?_zip_eq_some]
    exact ⟨hp, hzw⟩
  · exact hzw

theorem residuals_are_obs_minus_pred_witness :
    (plot_residuals [(5 : Int), 9] [(2 : Int), 3] true).points.get? 0 =
      some ((2 : Int), (3 : Int)) ∧
    (plot_observed_vs_predicted [(5 : Int), 9] [(2 : Int), 3]).ax_residuals =
      plot_residuals [(5 : Int), 9] [(2 : Int), 3] true ∧
    (plot_observed_vs_predicted [(5 : Int), 9]
      [(2 : Int), 3]).ax_residual_kde.data.get? 0 = some (3 : Int) :=
  residuals_are_obs_minus_pred [5, 9] [2, 3] (by decide) 0 (by decide)

/-! Lemmas: the HTML renderer. -/

theorem checkColumns_ok (cols dfCols : List PdCol)
    (h : ∀ c ∈ cols, dfCols.contains c = true) :
    checkColumns cols dfCols = .ok () := by
  induction cols with
  | nil => rfl
  | cons c rest ih =>
      rw [checkColumns, if_pos (h c (by simp))]
      exact ih (fun x hx => h x (by simp [hx]))

theorem checkColumns_error (cols dfCols : List PdCol)
    (h : ∃ c ∈ cols, dfCols.contains c = false) :
    checkColumns cols dfCols = .error .assertionError := by
  induction cols with
  | nil =>
      obtain ⟨c, hc, -⟩ := h
      simp at hc
  | cons c rest ih =>
      by_cases hc : dfCols.contains c = true
      · rw [checkColumns, if_pos hc]
        apply ih
        obtain ⟨x, hx, hxf⟩ := h
        rcases List.mem_cons.mp hx with rfl | hx'
        · rw [hc] at hxf
          cases hxf
        · exact ⟨x, hx', hxf⟩
      · rw [checkColumns, if_neg hc]

theorem lookup_mkFormatters (render : Figure → List Nat) (cols : List PdCol)
    (col : PdCol) :
    List.lookup col (mkFormatters render cols) =
      if cols.contains col then some (cell_figure_mapping render)
      else none := by
  induction cols with
  | nil => rfl
  | cons c rest ih =>
      show List.lookup col ((c, cell_figure_mapping render) ::
        mkFormatters render rest) = _
      rw [List.lookup]
      have hcont : (c :: rest).contains col = (col == c || rest.contains col) := by
        simp [List.contains, List.elem]
        cases he : col == c <;> simp [he]
      rw [hcont]
      cases he : col == c with
      | true => simp
      | false => simpa [he] using ih

/-- Claim C4: `html_from_dataframe` with `figure_columns='infer'` selects
exactly the columns whose second-level label is the literal `"fig"` — the
infer path coincides with the explicit path on that filtered column list —
and a cell of a present column is rendered by the image formatter exactly
when its column's second-level label is `"fig"`, all other columns using
default formatting. -/
theorem html_infer_selects_fig_columns (render : Figure → List Nat)
    (df : DataFrame) :
    html_from_dataframe render df .infer =
      html_from_dataframe render df
        (.explicit (df.columns.filter (fun c => c.2 == "fig"))) ∧
    ∀ col c, col ∈ df.columns →
      renderCell
        (mkFormatters render (df.columns.filter (fun c => c.2 == "fig")))
        col c =
        (if col.2 == "fig" then cell_figure_mapping render c
         else .ok (Cell.defaultStr c)) := by
  constructor
  · have hchk : checkColumns (df.columns.filter (fun c => c.2 == "fig"))
        df.columns = .ok () := by
      apply checkColumns_ok
      intro c hc
      exact List.elem_eq_true_of_mem (List.mem_filter.mp hc).1
    rw [html_from_dataframe, html_from_dataframe]
    simp only [hchk]
    rfl
  · intro col c hcol
    rw [renderCell, lookup_mkFormatters]
    by_cases hfig : (col.2 == "fig") = true
    · have hmem : col ∈ df.columns.filter (fun c => c.2 == "fig") :=
        List.mem_filter.mpr ⟨hcol, hfig⟩
      rw [if_pos (List.elem_eq_true_of_mem hmem), if_pos hfig]
    · have hnmem : (df.columns.filter
          (fun c => c.2 == "fig")).contains col = false := by
        cases hcont : (df.columns.filter
            (fun c => c.2 == "fig")).contains col
        · rfl
        · have := (List.mem_filter.mp
            (List.mem_of_elem_eq_true hcont)).2
          exact absurd this hfig
      rw [hnmem, if_neg hfig]
      simp

/-- The concrete dataframe used for evaluation: one `"fig"`-tagged column
and one plain column, one row. -/
def dfW : DataFrame :=
  { columns := [("a", "fig"), ("b", "val")]
    rows := [[Cell.figure figW0, Cell.text "x"]] }

theorem html_infer_selects_fig_columns_witness :
    html_from_dataframe renderW dfW .infer =
      html_from_dataframe renderW dfW
        (.explicit (dfW.columns.filter (fun c => c.2 == "fig"))) ∧
    renderCell
      (mkFormatters renderW (dfW.columns.filter (fun c => c.2 == "fig")))
      ("b", "val") (Cell.text "x") = .ok (Cell.defaultStr (Cell.text "x")) := by
  have h := html_infer_selects_fig_columns renderW dfW
  exact ⟨h.1, h.2 ("b", "val") (Cell.text "x") (by decide)⟩

/-- Claim C7: `html_from_dataframe` called with an explicit list of figure
columns raises the assertion error — producing no output string — whenever
any requested column is absent from the table's columns. -/
theorem html_explicit_missing_column_errors (render : Figure → List Nat)
    (df : DataFrame) (cols : List PdCol)
    (h : ∃ c ∈ cols, c ∉ df.columns) :
    html_from_dataframe render df (.explicit cols) =
      .error .assertionError := by
  have hchk : checkColumns cols df.columns = .error .assertionError := by
    apply checkColumns_error
    obtain ⟨c, hc, hnc⟩ := h
    refine ⟨c, hc, ?_⟩
    cases hcont : df.columns.contains c
    · rfl
    · exact absurd (List.mem_of_elem_eq_true hcont) hnc
  rw [html_from_dataframe]
  simp only [hchk]
  rfl

theorem html_explicit_missing_column_errors_witness :
    html_from_dataframe renderW dfW (.explicit [("zz", "fig")]) =
      .error .assertionError :=
  html_explicit_missing_column_errors renderW dfW [("zz", "fig")]
    ⟨("zz", "fig"), by decide, by decide⟩
